import Mathlib

/-!
Shallow embedding of the progression ledger and reconciliation engine of
`src/lib/game.ts` (plus the badge catalog of `src/lib/badges.shared.ts`).

Modelling conventions:
* TypeScript `number` values that the engine treats as integers (XP amounts,
  counts, levels, timestamps in milliseconds) are modelled as `Int`.
* Calendar-day keys (ISO `YYYY-MM-DD` strings) are modelled by their UTC day
  number (milliseconds since epoch divided by 86400000): valid date-only keys
  are in bijection with day numbers, string equality of keys coincides with
  equality of day numbers, and `new Date(key)` yields the UTC midnight of that
  day, so the millisecond difference of two parsed keys divided by 86400000 is
  exactly the difference of their day numbers.
* The ambient clock (`getCurrentWeekKey()` / `getCurrentDateKey()` /
  `serverTimestamp()`) is passed in explicitly: functions that call it in the
  source take the current week key / current time as an extra argument.
* Firestore documents are modelled as records; a merge write
  (`setDoc(_, u, {merge:true})` / `tx.set(_, u, {merge:true})`) updates exactly
  the fields listed in `u` and leaves all other fields unchanged.  A field that
  is absent in the store is modelled by its falsy default (0, `none`), which is
  exactly how every read in this code observes it (`x || 0`,
  `===` against a defined value).
* `runTransaction` bodies are sequential state transformations; the claims
  examined here are about a single client, so the transaction is modelled as
  the pure function it computes.
-/

/-! ### Level calculator (`src/lib/game.ts` lines 17–44) -/

def LEVEL_THRESHOLDS : List Int := [0, 50, 200, 600, 1500, 3500, 7500]

def LEVEL_NAMES : List String :=
  ["levels.beginner", "levels.explorer", "levels.seeker", "levels.adept",
   "levels.navigator", "levels.guide", "levels.sage"]

/-- `computeLevel`: `level = 1`; for each index `i` in order, if
`allTimeXP >= LEVEL_THRESHOLDS[i]` then `level = i + 1`; finally
`min(level, LEVEL_THRESHOLDS.length)`. -/
def computeLevel (allTimeXP : Int) : Int :=
  let level := LEVEL_THRESHOLDS.enum.foldl
    (fun level p => if allTimeXP ≥ p.2 then (p.1 : Int) + 1 else level) 1
  min level (LEVEL_THRESHOLDS.length : Int)

/-- `computeLevelName`: `LEVEL_NAMES[min(max(level,1),len)-1] || 'levels.explorer'`
(the `||` fallback only fires for an out-of-range index, since no name in the
table is empty). -/
def computeLevelName (level : Int) : String :=
  ((LEVEL_NAMES.get? (min (max level 1) (LEVEL_NAMES.length : Int) - 1).toNat).getD
    "levels.explorer")

/-- The formula stated by the spec for claim C3: `1 + (count of thresholds ≤ XP)`,
capped at the table length.  Kept separate from `computeLevel`, which is the
source translation, so the two can be compared. -/
def specLevelFormula (xp : Int) : Int :=
  min (1 + ((LEVEL_THRESHOLDS.filter (fun t => t ≤ xp)).length : Int))
    (LEVEL_THRESHOLDS.length : Int)

/-- Closed form of the translated loop, used by the symbolic proofs. -/
lemma computeLevel_eq (x : Int) :
    computeLevel x =
      min (if x ≥ 7500 then 7 else if x ≥ 3500 then 6 else if x ≥ 1500 then 5
           else if x ≥ 600 then 4 else if x ≥ 200 then 3 else if x ≥ 50 then 2
           else if x ≥ 0 then 1 else 1) 7 := by
  simp only [computeLevel, LEVEL_THRESHOLDS, List.enum, List.enumFrom, List.foldl,
    List.length]
  norm_num

/-- The count-of-thresholds form that `computeLevel` actually satisfies on
non-negative XP (the spec's `1 +` is dropped: the leading threshold 0 is
itself counted). -/
def countLevelFormula (xp : Int) : Int :=
  min ((LEVEL_THRESHOLDS.filter (fun t => t ≤ xp)).length : Int)
    (LEVEL_THRESHOLDS.length : Int)

/-! ### The stats aggregate document (`users/{uid}/stats/main`)

Fields written by `ensureStatsDoc`, `awardXpOnce`, `reconcileStatsFromData`
and read by `reconcileBadges`.  Numeric fields default to 0 and optional
fields to `none`, matching how an absent Firestore field is observed by this
code (`stats.x || 0`, `stats.weeklyKey === weekKey`). -/

structure StatsDoc where
  allTimeXP : Int := 0
  weeklyXP : Int := 0
  weeklyKey : Option String := none
  level : Int := 0
  levelName : Option String := none
  activeBadgeId : Option String := none
  momentsCount : Int := 0
  reflectionsCount : Int := 0
  streakDays : Int := 0
  bestStreakDays : Int := 0
  journeyDay : Int := 0
  journeyWeekKey : Option String := none
  lastMomentAt : Option Int := none
  lastReflectionAt : Option Int := none
  depthMoments : Int := 0
  emotionCounts : String → Int := fun _ => 0
  patternsViewed : Int := 0
deriving Inhabited

/-- An XP event document `users/{uid}/xp_events/{eventId}`: `{amount, createdAt:
serverTimestamp(), weekKey, metadata}`.  The opaque server timestamp is not
modelled; no function of the engine ever reads it. -/
structure XpEvent where
  amount : Int
  weekKey : String
  metadata : List (String × String)
deriving Repr, DecidableEq

/-- Return value of `awardXpOnce`: `{awarded: bool, level: number | null}`. -/
structure AwardResult where
  awarded : Bool
  level : Option Int
deriving Repr, DecidableEq

/-- The per-user persistent state the XP ledger touches: the `xp_events`
collection (an association list keyed by event id) and the aggregate document
(`none` when it does not exist yet). -/
structure UserState where
  xpEvents : List (String × XpEvent)
  stats : Option StatsDoc

/-- `statsSnap.exists() ? statsSnap.data() : {}` followed by
`stats.weeklyKey === weekKey`: an absent document (or absent field) never
equals a defined week key. -/
def storedWeeklyKey : Option StatsDoc → Option String
  | some d => d.weeklyKey
  | none => none

/-- `stats.weeklyXP || 0` on a possibly absent document. -/
def storedWeeklyXP : Option StatsDoc → Int
  | some d => d.weeklyXP
  | none => 0

/-- `stats.allTimeXP || 0` on a possibly absent document. -/
def storedAllTimeXP : Option StatsDoc → Int
  | some d => d.allTimeXP
  | none => 0

/-- The ledger's merge write
`tx.set(sRef, {weeklyKey, weeklyXP, allTimeXP, level, levelName}, {merge:true})`:
exactly those five fields are replaced; merging into an absent document creates
one whose other fields are absent (modelled by their defaults). -/
def mergeLedgerFields (stats : Option StatsDoc) (weekKey : String)
    (newWeekly newAll level : Int) (levelName : String) : StatsDoc :=
  let base := stats.getD {}
  { base with
    weeklyKey := some weekKey
    weeklyXP := newWeekly
    allTimeXP := newAll
    level := level
    levelName := some levelName }

/-- `awardXpOnce(uid, eventId, amount, metadata)` (`src/lib/game.ts` lines
72–125).  `weekKey` is the ambient `getCurrentWeekKey()` at call time.  Returns
the transaction result together with the post-state. -/
def awardXpOnce (uid eventId : String) (amount : Int)
    (metadata : Option (List (String × String))) (weekKey : String)
    (st : UserState) : AwardResult × UserState :=
  if uid = "" ∨ eventId = "" ∨ amount ≤ 0 then
    ({ awarded := false, level := none }, st)
  else
    match st.xpEvents.lookup eventId with
    | some _ => ({ awarded := false, level := none }, st)
    | none =>
      let stats := st.stats
      let weeklyXP := if storedWeeklyKey stats = some weekKey
                      then storedWeeklyXP stats else 0
      let allTimeXP := storedAllTimeXP stats
      let newAll := allTimeXP + amount
      let newWeekly := weeklyXP + amount
      let level := computeLevel newAll
      let levelName := computeLevelName level
      let ev : XpEvent := { amount := amount, weekKey := weekKey,
                            metadata := metadata.getD [] }
      ({ awarded := true, level := some level },
       { xpEvents := (eventId, ev) :: st.xpEvents
         stats := some (mergeLedgerFields stats weekKey newWeekly newAll level
                          levelName) })

/-- `ensureStatsDoc` (`src/lib/game.ts` lines 50–70): create the aggregate with
zeroed fields when it does not exist; `weekKey` is the ambient
`getCurrentWeekKey()`. -/
def initialStatsDoc (weekKey : String) : StatsDoc :=
  { allTimeXP := 0, weeklyXP := 0, weeklyKey := some weekKey, level := 1,
    levelName := some (computeLevelName 1), activeBadgeId := none,
    momentsCount := 0, reflectionsCount := 0, streakDays := 0,
    bestStreakDays := 0, journeyDay := 0, journeyWeekKey := some weekKey }

def ensureStatsDoc (stats : Option StatsDoc) (weekKey : String) : StatsDoc :=
  match stats with
  | some d => d
  | none => initialStatsDoc weekKey

/-! ### Reconciliation (`src/lib/game.ts` lines 138–235)

A moment document: `createdAt` is a timestamp in milliseconds (absent allowed),
`tags` a possibly-empty list (`undefined` and `[]` are both falsy in
`d.tags && d.tags.length`, so both are the empty list here), `note` a string
(absent = `""`, both falsy), `emotion` an optional string (`""` is falsy in
`if (d.emotion)`). -/

structure Moment where
  createdAt : Option Int := none
  tags : List String := []
  note : String := ""
  emotion : Option String := none

/-- A daily-reflection document.  `id` is the document id and `dateKey` the
optional field, both calendar-day numbers (see the date-key convention above);
the code uses `d.dateKey || docSnap.id`. -/
structure Reflection where
  id : Int
  dateKey : Option Int := none
  completed : Bool := false
  completedAt : Option Int := none

/-- `getCurrentDateKey`: the UTC calendar-day number of a millisecond
timestamp (the ISO date-only prefix of `toISOString()`). -/
def getCurrentDateKey (nowMs : Int) : Int :=
  Int.fdiv nowMs 86400000

/-- Millisecond comparison fold for `lastMomentAt` / `lastReflectionAt`:
`if (t && (!last || t > last)) last = t`. -/
def maxTimestamp (acc : Option Int) (t : Option Int) : Option Int :=
  match t with
  | none => acc
  | some v =>
    match acc with
    | none => some v
    | some a => if v > a then some v else acc

/-- Descending insertion: models one step of
`.sort((a, b) => b.getTime() - a.getTime())`.  On integers, any comparison
sort agrees extensionally, so a structurally recursive insertion sort is used. -/
def insertDesc (x : Int) : List Int → List Int
  | [] => [x]
  | y :: ys => if x ≥ y then x :: y :: ys else y :: insertDesc x ys

def sortDesc : List Int → List Int
  | [] => []
  | x :: xs => insertDesc x (sortDesc xs)

/-- One iteration of the streak walk (lines 185–199).  State is
`(streak, bestStreak, prev)`.  `diff = (prev - date) / 86400000` in days;
`diff === 1` extends, `diff > 1` restarts at 1, any other diff (0, from a
duplicate date in the descending list) leaves the streak unchanged. -/
def streakStep (acc : Int × Int × Option Int) (date : Int) :
    Int × Int × Option Int :=
  let streak := acc.1
  let bestStreak := acc.2.1
  let prev := acc.2.2
  let streak' :=
    match prev with
    | none => 1
    | some p =>
      let diff := p - date
      if diff = 1 then streak + 1
      else if diff > 1 then 1
      else streak
  (streak', max bestStreak streak', some date)

/-- Lines 176–206: sort the completed-reflection dates descending, walk them,
then force the streak to 0 when today's key is not among the dates.  (The
`isNaN` filter drops unparsable keys; day numbers are all parsable, so it is
the identity here.)  Returns `(streakDays, bestStreakDays)`. -/
def computeStreakPair (reflectionDates : List Int) (today : Int) : Int × Int :=
  let sortedDates := sortDesc reflectionDates
  let walked := sortedDates.foldl streakStep (0, 0, none)
  let streak := if today ∈ reflectionDates then walked.1 else 0
  (streak, walked.2.1)

/-- The completed-reflection date keys (`d.dateKey || docSnap.id` for every
document with `d.completed`). -/
def reflectionDatesOf (reflections : List Reflection) : List Int :=
  (reflections.filter (fun r => r.completed)).map (fun r => r.dateKey.getD r.id)

/-- The `updates` object built by `reconcileStatsFromData` (lines 221–231). -/
structure ReconcileUpdates where
  momentsCount : Int
  reflectionsCount : Int
  streakDays : Int
  bestStreakDays : Int
  journeyDay : Int
  lastMomentAt : Option Int
  lastReflectionAt : Option Int
  depthMoments : Int
  emotionCounts : String → Int

/-- The pure computation of `reconcileStatsFromData` from the raw collections
(lines 147–231); `nowMs` is the ambient current time. -/
def reconcileUpdates (moments : List Moment) (reflections : List Reflection)
    (nowMs : Int) : ReconcileUpdates :=
  let momentsCount : Int := moments.length
  let completed := reflections.filter (fun r => r.completed)
  let reflectionsCount : Int := completed.length
  let reflectionDates := reflectionDatesOf reflections
  let lastMomentAt := moments.foldl (fun acc m => maxTimestamp acc m.createdAt) none
  let lastReflectionAt :=
    completed.foldl (fun acc r => maxTimestamp acc r.completedAt) none
  let depthMoments : Int :=
    (moments.filter (fun m => !m.tags.isEmpty || m.note ≠ "")).length
  let emotionCounts : String → Int := fun e =>
    moments.foldl
      (fun n m => if m.emotion = some e ∧ e ≠ "" then n + 1 else n) 0
  let today := getCurrentDateKey nowMs
  let streaks := computeStreakPair reflectionDates today
  let sevenDaysAgo := nowMs - 6 * 86400000
  let journeyDays :=
    ((moments.filterMap (fun m => m.createdAt)).filter
      (fun t => t ≥ sevenDaysAgo)).map getCurrentDateKey
  let journeyDay : Int := min 7 (journeyDays.dedup.length : Int)
  { momentsCount := momentsCount
    reflectionsCount := reflectionsCount
    streakDays := streaks.1
    bestStreakDays := streaks.2
    journeyDay := journeyDay
    lastMomentAt := lastMomentAt
    lastReflectionAt := lastReflectionAt
    depthMoments := depthMoments
    emotionCounts := emotionCounts }

/-- `setDoc(ref, updates, {merge:true})` (line 233): exactly the nine
reconciliation-owned fields are replaced. -/
def applyReconcileUpdates (d : StatsDoc) (u : ReconcileUpdates) : StatsDoc :=
  { d with
    momentsCount := u.momentsCount
    reflectionsCount := u.reflectionsCount
    streakDays := u.streakDays
    bestStreakDays := u.bestStreakDays
    journeyDay := u.journeyDay
    lastMomentAt := u.lastMomentAt
    lastReflectionAt := u.lastReflectionAt
    depthMoments := u.depthMoments
    emotionCounts := u.emotionCounts }

/-- `reconcileStatsFromData(uid)` (lines 138–235): ensure the aggregate exists,
recompute the updates from the raw collections, merge-write them.  Returns the
new aggregate document and the `updates` return value. -/
def reconcileStatsFromData (stats : Option StatsDoc)
    (moments : List Moment) (reflections : List Reflection)
    (nowMs : Int) (weekKey : String) : StatsDoc × ReconcileUpdates :=
  let ensured := ensureStatsDoc stats weekKey
  let u := reconcileUpdates moments reflections nowMs
  (applyReconcileUpdates ensured u, u)

/-! ### Badge engine (`src/lib/badges.shared.ts` and `src/lib/game.ts`
lines 237–312) -/

structure BadgeDefinition where
  id : String
  name : String
  icon : String
  category : String
  description : String
  criteriaType : String
  threshold : Int
  emotionType : Option String := none
  xpReward : Int

def BADGE_DEFINITIONS : List BadgeDefinition :=
  [{ id := "first_steps", name := "First Steps", icon := "🌱",
     category := "getting_started", description := "Logged your first moment",
     criteriaType := "moments_logged", threshold := 1, xpReward := 10 },
   { id := "reflection_starter", name := "Reflection Starter", icon := "💭",
     category := "getting_started",
     description := "Completed your first daily reflection",
     criteriaType := "reflections_completed", threshold := 1, xpReward := 15 },
   { id := "three_in_a_row", name := "Building Momentum", icon := "🔥",
     category := "consistency",
     description := "Completed reflections on 3 different days",
     criteriaType := "reflections_completed", threshold := 3, xpReward := 25 },
   { id := "weekly_warrior", name := "Weekly Warrior", icon := "⚡",
     category := "consistency",
     description := "Completed reflections on 7 different days",
     criteriaType := "reflections_completed", threshold := 7, xpReward := 50 },
   { id := "depth_builder", name := "Depth Builder", icon := "📝",
     category := "depth", description := "Added tags or notes to 5 moments",
     criteriaType := "tags_added", threshold := 5, xpReward := 20 },
   { id := "detail_master", name := "Detail Master", icon := "🎯",
     category := "depth", description := "Added tags or notes to 20 moments",
     criteriaType := "tags_added", threshold := 20, xpReward := 40 },
   { id := "calm_finder", name := "Calm Finder", icon := "🕊️",
     category := "emotion", description := "Logged \"Calm\" emotion 5 times",
     criteriaType := "emotion_logged", threshold := 5,
     emotionType := some "Calm", xpReward := 20 },
   { id := "hard_truth", name := "Raw Honesty", icon := "💢",
     category := "emotion",
     description := "Logged difficult emotions (Hurt/Angry) 3 times",
     criteriaType := "emotion_logged", threshold := 3,
     emotionType := some "Hurt", xpReward := 30 },
   { id := "joy_seeker", name := "Joy Seeker", icon := "✨",
     category := "emotion",
     description := "Logged \"Happy\" or \"Excited\" 10 times",
     criteriaType := "emotion_logged", threshold := 10,
     emotionType := some "Happy", xpReward := 25 },
   { id := "pattern_hunter", name := "Pattern Hunter", icon := "🔍",
     category := "insight", description := "Viewed your patterns page 3 times",
     criteriaType := "patterns_viewed", threshold := 3, xpReward := 15 },
   { id := "streak_starter", name := "Streak Starter", icon := "🌟",
     category := "consistency", description := "Maintained a 3-day streak",
     criteriaType := "streak_days", threshold := 3, xpReward := 30 },
   { id := "committed", name := "Fully Committed", icon := "🏆",
     category := "consistency", description := "Maintained a 7-day streak",
     criteriaType := "streak_days", threshold := 7, xpReward := 60 }]

/-- A badge record `users/{uid}/badges/{id}` as written by `reconcileBadges`. -/
structure BadgeRecord where
  earned : Bool
  earnedAt : Option Int
  progressCurrent : Int
  progressTarget : Int
  progressText : String
  category : String

/-- The `switch (def.criteriaType)` of `reconcileBadges` (lines 270–291).
`reflectionsDaysSize` is the size of the set of completed-reflection date keys
and `tagsNotesCount` the count of moments with tags or a note, both derived
below from the raw collections as in lines 248–262. -/
def badgeProgress (d : BadgeDefinition) (stats : StatsDoc)
    (reflectionsDaysSize tagsNotesCount : Int)
    (emotionCounts : String → Int) : Int :=
  if d.criteriaType = "moments_logged" then stats.momentsCount
  else if d.criteriaType = "reflections_completed" then reflectionsDaysSize
  else if d.criteriaType = "tags_added" then tagsNotesCount
  else if d.criteriaType = "emotion_logged" then
    emotionCounts (d.emotionType.getD "")
  else if d.criteriaType = "streak_days" then stats.streakDays
  else if d.criteriaType = "patterns_viewed" then stats.patternsViewed
  else 0

/-- The record merge-written for one badge definition (lines 292–308).  Every
field of the record is in the write payload, so the previous record does not
influence the result: `earned = progressCurrent >= target && target > 0`
unconditionally.  (`def.threshold || 0` is the identity on the catalog, whose
thresholds are all present.) -/
def reconcileBadgeRecord (d : BadgeDefinition) (stats : StatsDoc)
    (reflectionsDaysSize tagsNotesCount : Int)
    (emotionCounts : String → Int) (nowMs : Int) : BadgeRecord :=
  let target := d.threshold
  let progressCurrent :=
    badgeProgress d stats reflectionsDaysSize tagsNotesCount emotionCounts
  let earned := progressCurrent ≥ target ∧ target > 0
  { earned := decide earned
    earnedAt := if progressCurrent ≥ target ∧ target > 0 then some nowMs else none
    progressCurrent := progressCurrent
    progressTarget := target
    progressText := toString progressCurrent ++ "/" ++ toString target
    category := d.category }

/-- `reconcileBadges(uid)` (lines 237–312): derive the supplemental counts from
the raw collections and write one record per catalog definition. -/
def reconcileBadges (stats : StatsDoc) (moments : List Moment)
    (reflections : List Reflection) (nowMs : Int) :
    List (String × BadgeRecord) :=
  let reflectionsDaysSize : Int := (reflectionDatesOf reflections).dedup.length
  let tagsNotesCount : Int :=
    (moments.filter (fun m => !m.tags.isEmpty || m.note ≠ "")).length
  let emotionCounts : String → Int := fun e =>
    moments.foldl
      (fun n m => if m.emotion = some e ∧ e ≠ "" then n + 1 else n) 0
  BADGE_DEFINITIONS.map (fun d =>
    (d.id, reconcileBadgeRecord d stats reflectionsDaysSize tagsNotesCount
             emotionCounts nowMs))

/-! ## Claim theorems -/

/-- C3 (counterexample): the spec's formula `1 + (count of thresholds ≤ XP)`
capped at the table length disagrees with `computeLevel` already at XP = 0:
the code yields level 1 while the formula yields 2 (the threshold 0 is itself
counted, so the extra `1 +` double-counts it). -/
theorem computeLevel_specFormula_counterexample :
    computeLevel 0 = 1 ∧ specLevelFormula 0 = 2 ∧
    computeLevel 0 ≠ specLevelFormula 0 := by decide

/-- C3 (amended): for every non-negative XP, `computeLevel xp` equals the
count of entries of the threshold table that are ≤ xp, capped at the table
length (no leading `1 +`). -/
theorem computeLevel_counts_thresholds (xp : Int) (h : 0 ≤ xp) :
    computeLevel xp = countLevelFormula xp := by
  rw [computeLevel_eq]
  rcases le_or_lt 7500 xp with h6 | h6
  · have c5 : (3500:Int) ≤ xp := by omega
    have c4 : (1500:Int) ≤ xp := by omega
    have c3 : (600:Int) ≤ xp := by omega
    have c2 : (200:Int) ≤ xp := by omega
    have c1 : (50:Int) ≤ xp := by omega
    simp [countLevelFormula, LEVEL_THRESHOLDS, List.filter, h, c1, c2, c3, c4,
      c5, h6]
  rcases le_or_lt 3500 xp with h5 | h5
  · have n6 : ¬ ((7500:Int) ≤ xp) := by omega
    have c4 : (1500:Int) ≤ xp := by omega
    have c3 : (600:Int) ≤ xp := by omega
    have c2 : (200:Int) ≤ xp := by omega
    have c1 : (50:Int) ≤ xp := by omega
    simp [countLevelFormula, LEVEL_THRESHOLDS, List.filter, h, c1, c2, c3, c4,
      h5, n6]
  rcases le_or_lt 1500 xp with h4 | h4
  · have n6 : ¬ ((7500:Int) ≤ xp) := by omega
    have n5 : ¬ ((3500:Int) ≤ xp) := by omega
    have c3 : (600:Int) ≤ xp := by omega
    have c2 : (200:Int) ≤ xp := by omega
    have c1 : (50:Int) ≤ xp := by omega
    simp [countLevelFormula, LEVEL_THRESHOLDS, List.filter, h, c1, c2, c3, h4,
      n5, n6]
  rcases le_or_lt 600 xp with h3 | h3
  · have n6 : ¬ ((7500:Int) ≤ xp) := by omega
    have n5 : ¬ ((3500:Int) ≤ xp) := by omega
    have n4 : ¬ ((1500:Int) ≤ xp) := by omega
    have c2 : (200:Int) ≤ xp := by omega
    have c1 : (50:Int) ≤ xp := by omega
    simp [countLevelFormula, LEVEL_THRESHOLDS, List.filter, h, c1, c2, h3, n4,
      n5, n6]
  rcases le_or_lt 200 xp with h2 | h2
  · have n6 : ¬ ((7500:Int) ≤ xp) := by omega
    have n5 : ¬ ((3500:Int) ≤ xp) := by omega
    have n4 : ¬ ((1500:Int) ≤ xp) := by omega
    have n3 : ¬ ((600:Int) ≤ xp) := by omega
    have c1 : (50:Int) ≤ xp := by omega
    simp [countLevelFormula, LEVEL_THRESHOLDS, List.filter, h, c1, h2, n3, n4,
      n5, n6]
  rcases le_or_lt 50 xp with h1 | h1
  · have n6 : ¬ ((7500:Int) ≤ xp) := by omega
    have n5 : ¬ ((3500:Int) ≤ xp) := by omega
    have n4 : ¬ ((1500:Int) ≤ xp) := by omega
    have n3 : ¬ ((600:Int) ≤ xp) := by omega
    have n2 : ¬ ((200:Int) ≤ xp) := by omega
    simp [countLevelFormula, LEVEL_THRESHOLDS, List.filter, h, h1, n2, n3, n4,
      n5, n6]
  · have n6 : ¬ ((7500:Int) ≤ xp) := by omega
    have n5 : ¬ ((3500:Int) ≤ xp) := by omega
    have n4 : ¬ ((1500:Int) ≤ xp) := by omega
    have n3 : ¬ ((600:Int) ≤ xp) := by omega
    have n2 : ¬ ((200:Int) ≤ xp) := by omega
    have n1 : ¬ ((50:Int) ≤ xp) := by omega
    simp [countLevelFormula, LEVEL_THRESHOLDS, List.filter, h, n1, n2, n3, n4,
      n5, n6]

/-- C3 (witness for the amended claim at XP = 120). -/
theorem computeLevel_counts_thresholds_witness :
    computeLevel 120 = countLevelFormula 120 :=
  computeLevel_counts_thresholds 120 (by decide)

set_option maxHeartbeats 2000000 in
/-- C4: `computeLevel` is non-decreasing, is 1 at XP = 0, never exceeds the
table length, and takes the values 1, 2, 7, 7 at XP = 49, 50, 7500 and
1 000 000. -/
theorem computeLevel_monotone_capped :
    (∀ x y : Int, x ≤ y → computeLevel x ≤ computeLevel y) ∧
    computeLevel 0 = 1 ∧
    (∀ x : Int, computeLevel x ≤ (LEVEL_THRESHOLDS.length : Int)) ∧
    computeLevel 49 = 1 ∧ computeLevel 50 = 2 ∧ computeLevel 7500 = 7 ∧
    computeLevel 1000000 = 7 := by
  refine ⟨?_, by decide, ?_, by decide, by decide, by decide, by decide⟩
  · intro x y hxy
    rw [computeLevel_eq, computeLevel_eq]
    split_ifs <;> omega
  · intro x
    rw [computeLevel_eq]
    have h7 : (LEVEL_THRESHOLDS.length : Int) = 7 := by decide
    rw [h7]
    split_ifs <;> omega

/-- C4 (witness): monotonicity applied at 3 ≤ 500. -/
theorem computeLevel_monotone_capped_witness :
    computeLevel 3 ≤ computeLevel 500 :=
  computeLevel_monotone_capped.1 3 500 (by decide)

/-- Evaluation of `awardXpOnce` on a fresh, valid grant (the transaction's
`none` branch), used by the per-key idempotence and weekly-reset proofs. -/
lemma awardXpOnce_fresh (uid eventId : String) (amount : Int)
    (metadata : Option (List (String × String))) (weekKey : String)
    (st : UserState)
    (huid : uid ≠ "") (hkey : eventId ≠ "") (hamt : 0 < amount)
    (hfresh : st.xpEvents.lookup eventId = none) :
    awardXpOnce uid eventId amount metadata weekKey st =
      ({ awarded := true,
         level := some (computeLevel (storedAllTimeXP st.stats + amount)) },
       { xpEvents := (eventId, { amount := amount, weekKey := weekKey,
                                 metadata := metadata.getD [] }) :: st.xpEvents
         stats := some (mergeLedgerFields st.stats weekKey
           ((if storedWeeklyKey st.stats = some weekKey
             then storedWeeklyXP st.stats else 0) + amount)
           (storedAllTimeXP st.stats + amount)
           (computeLevel (storedAllTimeXP st.stats + amount))
           (computeLevelName
             (computeLevel (storedAllTimeXP st.stats + amount)))) }) := by
  have hguard : ¬ (uid = "" ∨ eventId = "" ∨ amount ≤ 0) := by
    push_neg
    exact ⟨huid, hkey, by omega⟩
  unfold awardXpOnce
  rw [if_neg hguard, hfresh]

/-- Evaluation of `awardXpOnce` when the event key already exists: the call
returns `{awarded:false, level:null}` and the state is untouched. -/
lemma awardXpOnce_replay (uid eventId : String) (amount : Int)
    (metadata : Option (List (String × String))) (weekKey : String)
    (st : UserState) (ev : XpEvent)
    (hev : st.xpEvents.lookup eventId = some ev) :
    awardXpOnce uid eventId amount metadata weekKey st =
      ({ awarded := false, level := none }, st) := by
  unfold awardXpOnce
  rw [hev]
  split <;> rfl

/-- C1: per-key idempotence of `awardXpOnce`.  For every user state whose
ledger has no event at the (non-empty) key yet and whose aggregate carries the
current week key, awarding a positive amount twice increments `allTimeXP` and
`weeklyXP` by exactly the amount (not twice it); the first call returns
`awarded:true`, the second returns `awarded:false` and leaves the state
unchanged. -/
theorem awardXpOnce_idempotent (uid eventId : String) (amount : Int)
    (metadata : Option (List (String × String))) (weekKey : String)
    (st : UserState)
    (huid : uid ≠ "") (hkey : eventId ≠ "") (hamt : 0 < amount)
    (hfresh : st.xpEvents.lookup eventId = none)
    (hweek : storedWeeklyKey st.stats = some weekKey) :
    (awardXpOnce uid eventId amount metadata weekKey st).1.awarded = true ∧
    (awardXpOnce uid eventId amount metadata weekKey
        (awardXpOnce uid eventId amount metadata weekKey st).2).1 =
      { awarded := false, level := none } ∧
    storedAllTimeXP (awardXpOnce uid eventId amount metadata weekKey
        (awardXpOnce uid eventId amount metadata weekKey st).2).2.stats =
      storedAllTimeXP st.stats + amount ∧
    storedWeeklyXP (awardXpOnce uid eventId amount metadata weekKey
        (awardXpOnce uid eventId amount metadata weekKey st).2).2.stats =
      storedWeeklyXP st.stats + amount ∧
    (awardXpOnce uid eventId amount metadata weekKey
        (awardXpOnce uid eventId amount metadata weekKey st).2).2 =
      (awardXpOnce uid eventId amount metadata weekKey st).2 := by
  rw [awardXpOnce_fresh uid eventId amount metadata weekKey st huid hkey hamt
    hfresh]
  have hreplay := awardXpOnce_replay uid eventId amount metadata weekKey
    (⟨(eventId, { amount := amount, weekKey := weekKey,
                  metadata := metadata.getD [] }) :: st.xpEvents,
      some (mergeLedgerFields st.stats weekKey
        ((if storedWeeklyKey st.stats = some weekKey
          then storedWeeklyXP st.stats else 0) + amount)
        (storedAllTimeXP st.stats + amount)
        (computeLevel (storedAllTimeXP st.stats + amount))
        (computeLevelName
          (computeLevel (storedAllTimeXP st.stats + amount))))⟩ : UserState)
    { amount := amount, weekKey := weekKey, metadata := metadata.getD [] }
    (by simp [List.lookup])
  rw [hreplay]
  refine ⟨rfl, rfl, ?_, ?_, rfl⟩
  · simp [storedAllTimeXP, mergeLedgerFields]
  · simp [storedWeeklyXP, mergeLedgerFields, hweek]

/-- C1 (witness): the idempotence theorem applied at a concrete state with
`allTimeXP = 40`, `weeklyXP = 40`, week key `2024-W01` and a fresh key `K`. -/
theorem awardXpOnce_idempotent_witness :
    (awardXpOnce "u1" "K" 10 none "2024-W01"
      ⟨[], some { allTimeXP := 40, weeklyXP := 40,
                  weeklyKey := some "2024-W01" }⟩).1.awarded = true ∧
    (awardXpOnce "u1" "K" 10 none "2024-W01"
        (awardXpOnce "u1" "K" 10 none "2024-W01"
          ⟨[], some { allTimeXP := 40, weeklyXP := 40,
                      weeklyKey := some "2024-W01" }⟩).2).1 =
      { awarded := false, level := none } ∧
    storedAllTimeXP (awardXpOnce "u1" "K" 10 none "2024-W01"
        (awardXpOnce "u1" "K" 10 none "2024-W01"
          ⟨[], some { allTimeXP := 40, weeklyXP := 40,
                      weeklyKey := some "2024-W01" }⟩).2).2.stats = 40 + 10 ∧
    storedWeeklyXP (awardXpOnce "u1" "K" 10 none "2024-W01"
        (awardXpOnce "u1" "K" 10 none "2024-W01"
          ⟨[], some { allTimeXP := 40, weeklyXP := 40,
                      weeklyKey := some "2024-W01" }⟩).2).2.stats = 40 + 10 ∧
    (awardXpOnce "u1" "K" 10 none "2024-W01"
        (awardXpOnce "u1" "K" 10 none "2024-W01"
          ⟨[], some { allTimeXP := 40, weeklyXP := 40,
                      weeklyKey := some "2024-W01" }⟩).2).2 =
      (awardXpOnce "u1" "K" 10 none "2024-W01"
        ⟨[], some { allTimeXP := 40, weeklyXP := 40,
                    weeklyKey := some "2024-W01" }⟩).2 :=
  awardXpOnce_idempotent "u1" "K" 10 none "2024-W01"
    ⟨[], some { allTimeXP := 40, weeklyXP := 40, weeklyKey := some "2024-W01" }⟩
    (by decide) (by decide) (by decide) (by decide) (by decide)

/-- The initial state of the spec's end-to-end scenario: no XP events yet,
aggregate `{allTimeXP:40, weeklyXP:40, weeklyKey:"2024-W01"}`. -/
def scenarioState : UserState :=
  { xpEvents := []
    stats := some { allTimeXP := 40, weeklyXP := 40,
                    weeklyKey := some "2024-W01" } }

/-- C2 (counterexample): in the end-to-end scenario the call does NOT return
`level:1` — `awardXpOnce` returns the freshly computed level of the new total
(line 95 then line 121 of `game.ts`), which is 2 after crossing the 50
threshold. -/
theorem awardXpOnce_scenario_counterexample :
    (awardXpOnce "u1" "MOMENT_COMPLETED_2024-01-08" 10 none "2024-W01"
      scenarioState).1.level = some 2 ∧
    (awardXpOnce "u1" "MOMENT_COMPLETED_2024-01-08" 10 none "2024-W01"
      scenarioState).1.level ≠ some 1 := by decide

/-- C2 (amended): the scenario call returns `{awarded:true, level:2}` (the
returned level equals the newly stored one) and the new aggregate is
`{allTimeXP:50, weeklyXP:50, level:2}`. -/
theorem awardXpOnce_scenario :
    (awardXpOnce "u1" "MOMENT_COMPLETED_2024-01-08" 10 none "2024-W01"
      scenarioState).1 = { awarded := true, level := some 2 } ∧
    ((awardXpOnce "u1" "MOMENT_COMPLETED_2024-01-08" 10 none "2024-W01"
      scenarioState).2.stats.map StatsDoc.allTimeXP) = some 50 ∧
    ((awardXpOnce "u1" "MOMENT_COMPLETED_2024-01-08" 10 none "2024-W01"
      scenarioState).2.stats.map StatsDoc.weeklyXP) = some 50 ∧
    ((awardXpOnce "u1" "MOMENT_COMPLETED_2024-01-08" 10 none "2024-W01"
      scenarioState).2.stats.map StatsDoc.level) = some 2 := by decide

/-- C5: when the aggregate's stored week key differs from the current week
key, a successful `awardXpOnce` treats the stored `weeklyXP` as 0: the new
`weeklyXP` is exactly the awarded amount and the stored week key becomes the
current one. -/
theorem awardXpOnce_weekly_reset (uid eventId : String) (amount : Int)
    (metadata : Option (List (String × String))) (weekKey : String)
    (st : UserState)
    (huid : uid ≠ "") (hkey : eventId ≠ "") (hamt : 0 < amount)
    (hfresh : st.xpEvents.lookup eventId = none)
    (hweek : storedWeeklyKey st.stats ≠ some weekKey) :
    (awardXpOnce uid eventId amount metadata weekKey st).1.awarded = true ∧
    storedWeeklyXP (awardXpOnce uid eventId amount metadata weekKey st).2.stats
      = amount ∧
    storedWeeklyKey (awardXpOnce uid eventId amount metadata weekKey st).2.stats
      = some weekKey := by
  rw [awardXpOnce_fresh uid eventId amount metadata weekKey st huid hkey hamt
    hfresh]
  refine ⟨rfl, ?_, ?_⟩
  · simp [storedWeeklyXP, mergeLedgerFields, hweek]
  · simp [storedWeeklyKey, mergeLedgerFields]

/-- C5 (witness): aggregate `{weeklyXP:40, weeklyKey:"2024-W01"}`, current
week `2024-W02`, awarding 10 XP yields `weeklyXP = 10` (not 50) and stores the
new week key. -/
theorem awardXpOnce_weekly_reset_witness :
    (awardXpOnce "u1" "K" 10 none "2024-W02"
      ⟨[], some { weeklyXP := 40, weeklyKey := some "2024-W01" }⟩).1.awarded
      = true ∧
    storedWeeklyXP (awardXpOnce "u1" "K" 10 none "2024-W02"
      ⟨[], some { weeklyXP := 40, weeklyKey := some "2024-W01" }⟩).2.stats
      = 10 ∧
    storedWeeklyKey (awardXpOnce "u1" "K" 10 none "2024-W02"
      ⟨[], some { weeklyXP := 40, weeklyKey := some "2024-W01" }⟩).2.stats
      = some "2024-W02" :=
  awardXpOnce_weekly_reset "u1" "K" 10 none "2024-W02"
    ⟨[], some { weeklyXP := 40, weeklyKey := some "2024-W01" }⟩
    (by decide) (by decide) (by decide) (by decide) (by decide)

/-- C9: a call with a missing user id, an empty key or a non-positive amount
short-circuits at the guard (line 78): it returns `{awarded:false, level:null}`
and the state — the XP event ledger and the aggregate — is exactly the input
state. -/
theorem awardXpOnce_invalid_noop (uid eventId : String) (amount : Int)
    (metadata : Option (List (String × String))) (weekKey : String)
    (st : UserState)
    (h : uid = "" ∨ eventId = "" ∨ amount ≤ 0) :
    awardXpOnce uid eventId amount metadata weekKey st =
      ({ awarded := false, level := none }, st) := by
  unfold awardXpOnce
  rw [if_pos h]

/-- C9 (witness): the guard theorem applied at an empty user id. -/
theorem awardXpOnce_invalid_noop_witness :
    awardXpOnce "" "K" 5 none "2024-W01" ⟨[], none⟩ =
      ({ awarded := false, level := none }, ⟨[], none⟩) :=
  awardXpOnce_invalid_noop "" "K" 5 none "2024-W01" ⟨[], none⟩ (Or.inl rfl)

/-- C6: the streak of `reconcileStatsFromData` — after walking the
descending-sorted completed dates (a gap of one day extends, a larger gap
restarts at 1, `bestStreakDays` tracks the maximum), the streak is forced to 0
whenever today's key is not among the completed dates; on consecutive days
Mon/Tue/Wed with today = Wed the streak is 3, on Mon/Wed (Tue missing) it is
1, and on Mon/Tue with today = Wed it is 0 while `bestStreakDays` keeps the
historical 2. -/
theorem reconcile_streak_cases :
    (∀ (moments : List Moment) (reflections : List Reflection) (nowMs : Int),
        getCurrentDateKey nowMs ∉ reflectionDatesOf reflections →
        (reconcileUpdates moments reflections nowMs).streakDays = 0) ∧
    ((reconcileUpdates []
        [⟨100, some 100, true, none⟩, ⟨101, some 101, true, none⟩,
         ⟨102, some 102, true, none⟩] (102 * 86400000)).streakDays = 3 ∧
     (reconcileUpdates []
        [⟨100, some 100, true, none⟩, ⟨101, some 101, true, none⟩,
         ⟨102, some 102, true, none⟩] (102 * 86400000)).bestStreakDays = 3) ∧
    ((reconcileUpdates []
        [⟨100, some 100, true, none⟩, ⟨102, some 102, true, none⟩]
        (102 * 86400000)).streakDays = 1 ∧
     (reconcileUpdates []
        [⟨100, some 100, true, none⟩, ⟨102, some 102, true, none⟩]
        (102 * 86400000)).bestStreakDays = 1) ∧
    ((reconcileUpdates []
        [⟨100, some 100, true, none⟩, ⟨101, some 101, true, none⟩]
        (102 * 86400000)).streakDays = 0 ∧
     (reconcileUpdates []
        [⟨100, some 100, true, none⟩, ⟨101, some 101, true, none⟩]
        (102 * 86400000)).bestStreakDays = 2) := by
  refine ⟨?_, by decide, by decide, by decide⟩
  intro moments reflections nowMs h
  simp [reconcileUpdates, computeStreakPair, h]

/-- C6 (witness): a single completed reflection yesterday and none today
forces `streakDays = 0`. -/
theorem reconcile_streak_cases_witness :
    (reconcileUpdates [] [⟨100, some 100, true, none⟩]
      (101 * 86400000)).streakDays = 0 :=
  reconcile_streak_cases.1 [] [⟨100, some 100, true, none⟩] (101 * 86400000)
    (by decide)

/-- The streak walk keeps `streak ≤ bestStreak` and `0 ≤ bestStreak`. -/
lemma streak_fold_invariant (l : List Int) (s b : Int) (p : Option Int)
    (hs : s ≤ b) (hb : 0 ≤ b) :
    (l.foldl streakStep (s, b, p)).1 ≤ (l.foldl streakStep (s, b, p)).2.1 ∧
    0 ≤ (l.foldl streakStep (s, b, p)).2.1 := by
  induction l generalizing s b p with
  | nil => exact ⟨hs, hb⟩
  | cons x xs ih =>
    simp only [List.foldl, streakStep]
    exact ih _ _ _ (le_max_right _ _) (le_trans hb (le_max_left _ _))

lemma computeStreakPair_le (dates : List Int) (today : Int) :
    (computeStreakPair dates today).1 ≤ (computeStreakPair dates today).2 := by
  have h := streak_fold_invariant (sortDesc dates) 0 0 none le_rfl le_rfl
  simp only [computeStreakPair]
  split
  · exact h.1
  · exact h.2

/-- C10: the updates produced by `reconcileStatsFromData` always satisfy
`streakDays ≤ bestStreakDays` — the walk keeps the running streak below the
running maximum and the final forcing to 0 can only lower `streakDays`. -/
theorem reconcile_streak_le_best (stats : Option StatsDoc)
    (moments : List Moment) (reflections : List Reflection)
    (nowMs : Int) (weekKey : String) :
    (reconcileStatsFromData stats moments reflections nowMs
      weekKey).2.streakDays ≤
    (reconcileStatsFromData stats moments reflections nowMs
      weekKey).2.bestStreakDays :=
  computeStreakPair_le (reflectionDatesOf reflections) (getCurrentDateKey nowMs)

/-- C8: on an existing aggregate, `reconcileStatsFromData` merge-writes exactly
the nine reconciliation-owned fields (which become the computed updates) and
leaves `allTimeXP`, `weeklyXP`, `weeklyKey`, `level`, `levelName` — as well as
`activeBadgeId`, `journeyWeekKey` and `patternsViewed` — unchanged. -/
theorem reconcileStats_frame (d : StatsDoc) (moments : List Moment)
    (reflections : List Reflection) (nowMs : Int) (weekKey : String) :
    ((reconcileStatsFromData (some d) moments reflections nowMs
        weekKey).1.allTimeXP = d.allTimeXP ∧
     (reconcileStatsFromData (some d) moments reflections nowMs
        weekKey).1.weeklyXP = d.weeklyXP ∧
     (reconcileStatsFromData (some d) moments reflections nowMs
        weekKey).1.weeklyKey = d.weeklyKey ∧
     (reconcileStatsFromData (some d) moments reflections nowMs
        weekKey).1.level = d.level ∧
     (reconcileStatsFromData (some d) moments reflections nowMs
        weekKey).1.levelName = d.levelName ∧
     (reconcileStatsFromData (some d) moments reflections nowMs
        weekKey).1.activeBadgeId = d.activeBadgeId ∧
     (reconcileStatsFromData (some d) moments reflections nowMs
        weekKey).1.journeyWeekKey = d.journeyWeekKey ∧
     (reconcileStatsFromData (some d) moments reflections nowMs
        weekKey).1.patternsViewed = d.patternsViewed) ∧
    ((reconcileStatsFromData (some d) moments reflections nowMs
        weekKey).1.momentsCount =
       (reconcileUpdates moments reflections nowMs).momentsCount ∧
     (reconcileStatsFromData (some d) moments reflections nowMs
        weekKey).1.reflectionsCount =
       (reconcileUpdates moments reflections nowMs).reflectionsCount ∧
     (reconcileStatsFromData (some d) moments reflections nowMs
        weekKey).1.streakDays =
       (reconcileUpdates moments reflections nowMs).streakDays ∧
     (reconcileStatsFromData (some d) moments reflections nowMs
        weekKey).1.bestStreakDays =
       (reconcileUpdates moments reflections nowMs).bestStreakDays ∧
     (reconcileStatsFromData (some d) moments reflections nowMs
        weekKey).1.journeyDay =
       (reconcileUpdates moments reflections nowMs).journeyDay ∧
     (reconcileStatsFromData (some d) moments reflections nowMs
        weekKey).1.lastMomentAt =
       (reconcileUpdates moments reflections nowMs).lastMomentAt ∧
     (reconcileStatsFromData (some d) moments reflections nowMs
        weekKey).1.lastReflectionAt =
       (reconcileUpdates moments reflections nowMs).lastReflectionAt ∧
     (reconcileStatsFromData (some d) moments reflections nowMs
        weekKey).1.depthMoments =
       (reconcileUpdates moments reflections nowMs).depthMoments ∧
     (reconcileStatsFromData (some d) moments reflections nowMs
        weekKey).1.emotionCounts =
       (reconcileUpdates moments reflections nowMs).emotionCounts) :=
  ⟨⟨rfl, rfl, rfl, rfl, rfl, rfl, rfl, rfl⟩,
   ⟨rfl, rfl, rfl, rfl, rfl, rfl, rfl, rfl, rfl⟩⟩

/-- C7 (code-gap evidence): `reconcileBadges` recomputes
`earned = progress >= threshold && threshold > 0` and merge-writes it
unconditionally, so an earned badge regresses to not-earned when the progress
source drops below the threshold again: with `momentsCount = 1` the
`first_steps` badge is written `earned = true`, and a later run with
`momentsCount = 0` writes `earned = false` for the same badge. -/
theorem reconcileBadges_earned_not_monotonic :
    ((reconcileBadges { momentsCount := 1 } [] [] 0).lookup "first_steps").map
      BadgeRecord.earned = some true ∧
    ((reconcileBadges { momentsCount := 0 } [] [] 0).lookup "first_steps").map
      BadgeRecord.earned = some false := by decide
